import Mathlib

/-!
Shallow embedding of the scoring and ranking engine of the neo4j-demo
repository.  The authoritative implementation is the movie module
(src/unnamed/part_003): the three Cypher queries in
recommendMoviesByUserSimilarity, recommendContentBased and
recommendByAttributes, together with the session wrapper query() in
src/unnamed/part_004.

The property graph (Movie, User, Genre, Director, Actor nodes; RATED,
HAS_GENRE, DIRECTED_BY, ACTED_IN edges) is embedded as explicit lists.
Each Cypher pipeline is translated stage by stage: MATCH clauses become
joins over the edge lists, WITH-aggregation becomes grouping by the
deduplicated list of group keys (Cypher guarantees no order for groups;
we fix first-appearance order, a deterministic refinement), ORDER BY
becomes a stable merge sort on the sort key, and LIMIT becomes take,
with a negative argument rejected as an error exactly as Neo4j rejects
a negative LIMIT at runtime.
-/

namespace Neo4jDemo

/-- A Movie node, with the properties written by createMovie
(part_003 lines 14-30): title, year, runtime, original_language,
release_date.  Per the data model, title is the sole external key. -/
structure Movie where
  title : String
  year : Int
  runtime : Int
  original_language : String
  release_date : String
deriving DecidableEq, Repr

/-- The property graph the engine reads.  Nodes carry their identity
(userId for User, name for Genre / Director / Actor); edges reference
node identities.  RATED edges are (userId, movie title, rating),
HAS_GENRE edges are (movie title, genre name), DIRECTED_BY edges are
(movie title, director name), ACTED_IN edges are
(actor name, movie title) - the direction used by createActor. -/
structure Graph where
  movies : List Movie
  users : List String
  genres : List String
  directors : List String
  actors : List String
  rated : List (String × String × Int)
  hasGenre : List (String × String)
  directedBy : List (String × String)
  actedIn : List (String × String)
deriving DecidableEq, Repr

/-- Cypher LIMIT with a parameter: Neo4j evaluates LIMIT $amount at
runtime and rejects a negative value with an error (LIMIT must be a
non-negative integer); LIMIT 0 yields no rows.  All three
recommendation queries end in LIMIT $amount with amount converted by
neo4j.int. -/
def cypherLimit {α : Type} (amount : Int) (rows : List α) : Except String (List α) :=
  if amount < 0 then Except.error "LIMIT: amount must be a non-negative integer"
  else Except.ok (rows.take amount.toNat)

/-- Cypher ORDER BY key DESC.  Neo4j sorts by the key only; the
relative order of rows with equal keys is not specified.  We fix the
deterministic refinement that equal-key rows keep their pipeline
order (stable merge sort). -/
def orderByDesc {α : Type} (key : α → Nat) (rows : List α) : List α :=
  List.insertionSort (fun a b => key b ≤ key a) rows

/-- An OPTIONAL MATCH whose pattern mentions only variables that are
already bound binds no new variables: whether or not the pattern (and
its WHERE clause) holds of the row, the row continues unchanged (on a
failed optional match only the new variables of the pattern would be
set to null, and here there are none).  This is the semantics of the
clause OPTIONAL MATCH (rec) WHERE abs(m.runtime - rec.runtime) < 10
in recommendContentBased (part_003 lines 269-270). -/
def optionalMatchBound {α : Type} (cond : α → Bool) (rows : List α) : List α :=
  rows.flatMap (fun r => if cond r then [r] else [r])

/-- Rows of MATCH (u:User)-[r:RATED]->(m:Movie): every RATED edge
joined to its User endpoint and Movie endpoint. -/
def ratedRows (G : Graph) : List (String × Movie × Int) :=
  G.rated.flatMap (fun e =>
    if e.1 ∈ G.users then
      (G.movies.filter (fun m => decide (m.title = e.2.1))).map (fun m => (e.1, m, e.2.2))
    else [])

/-- Names collected by MATCH (t)-[:HAS_GENRE]->(g:Genre), in edge-list
order: genre neighbours of the movie titled t that are Genre nodes. -/
def genreNames (G : Graph) (t : String) : List String :=
  (G.hasGenre.filter (fun e => decide (e.1 = t ∧ e.2 ∈ G.genres))).map (fun e => e.2)

/-- Director names of the movie titled t that are Director nodes
(used by the final collect of recommendByAttributes). -/
def directorNames (G : Graph) (t : String) : List String :=
  (G.directedBy.filter (fun e => decide (e.1 = t ∧ e.2 ∈ G.directors))).map (fun e => e.2)

/-- Actor names of the movie titled t that are Actor nodes
(used by the final collect of recommendByAttributes). -/
def actorNames (G : Graph) (t : String) : List String :=
  (G.actedIn.filter (fun e => decide (e.2 = t ∧ e.1 ∈ G.actors))).map (fun e => e.1)

/-! ### Collaborative strategy (part_003 lines 220-243)

Pipeline:
MATCH (u:User)-[r:RATED]->(m:Movie)
  WHERE m.title IN likedTitles AND r.rating >= 4
WITH u, COUNT(m) AS overlap
MATCH (u)-[r2:RATED]->(rec:Movie)
  WHERE r2.rating >= 4 AND NOT rec.title IN likedTitles
WITH rec, SUM(overlap) AS score, COUNT(DISTINCT u) AS voters
MATCH (rec)-[:HAS_GENRE]->(g:Genre)
WITH rec, score, COLLECT(g.name) as genres
RETURN rec, genres ORDER BY score DESC LIMIT amount
-/

/-- Rows surviving the first WHERE: rated edges whose movie is liked
and whose rating is at least 4. -/
def likedHighRows (G : Graph) (likedTitles : List String) : List (String × Movie × Int) :=
  (ratedRows G).filter (fun r => decide (r.2.1.title ∈ likedTitles ∧ 4 ≤ r.2.2))

/-- The first aggregation WITH u, COUNT(m) AS overlap: one row per
user present in likedHighRows, with the number of matched rows. -/
def overlapUsers (G : Graph) (likedTitles : List String) : List (String × Nat) :=
  ((likedHighRows G likedTitles).map (fun r => r.1)).dedup.map
    (fun u => (u, ((likedHighRows G likedTitles).filter (fun r => decide (r.1 = u))).length))

/-- Rows of the second MATCH: for each (user, overlap) row, one row
per high-rated movie of that user not in likedTitles; the row keeps
(user, overlap, candidate movie). -/
def candRows (G : Graph) (likedTitles : List String) : List (String × Nat × Movie) :=
  (overlapUsers G likedTitles).flatMap (fun uo =>
    ((ratedRows G).filter
        (fun r => decide (r.1 = uo.1 ∧ 4 ≤ r.2.2 ∧ r.2.1.title ∉ likedTitles))).map
      (fun r => (uo.1, uo.2, r.2.1)))

/-- The aggregation WITH rec, SUM(overlap) AS score,
COUNT(DISTINCT u) AS voters: one row per distinct candidate movie,
with the sum of the overlaps and the number of distinct users of its
rows.  Result entries are (candidate, score, voters). -/
def collabScored (G : Graph) (likedTitles : List String) : List (Movie × Nat × Nat) :=
  ((candRows G likedTitles).map (fun r => r.2.2)).dedup.map (fun rec =>
    (rec,
     (((candRows G likedTitles).filter (fun r => decide (r.2.2 = rec))).map
        (fun r => r.2.1)).sum,
     ((((candRows G likedTitles).filter (fun r => decide (r.2.2 = rec))).map
        (fun r => r.1)).dedup).length))

/-- A row of the collaborative result: the candidate movie node, the
score used by ORDER BY, and the collected genre names.  The Cypher
RETURN projects rec and genres; the score is kept in the row because
it is the sort key of the output (voters is dropped by the
genre-collecting WITH, as in the source). -/
structure CollabRow where
  recMovie : Movie
  score : Nat
  genres : List String
deriving DecidableEq, Repr

/-- The required MATCH (rec)-[:HAS_GENRE]->(g:Genre) followed by
WITH rec, score, COLLECT(g.name): a scored candidate with no genre
row is dropped; the others keep their score and collect their genre
names in edge order. -/
def collabRows (G : Graph) (likedTitles : List String) : List CollabRow :=
  (collabScored G likedTitles).filterMap (fun s =>
    match genreNames G s.1.title with
    | [] => none
    | g :: gs => some ⟨s.1, s.2.1, g :: gs⟩)

/-- The collaborative strategy recommendMoviesByUserSimilarity
(part_003 lines 220-243): rank the genre-annotated candidates by
score descending and apply LIMIT amount. -/
def recommendMoviesByUserSimilarity (G : Graph) (likedTitles : List String)
    (amount : Int) : Except String (List CollabRow) :=
  cypherLimit amount (orderByDesc CollabRow.score (collabRows G likedTitles))

/-! ### Content-based strategy (part_003 lines 251-287)

Pipeline:
UNWIND titles AS inputTitle
MATCH (m:Movie {title: inputTitle})
MATCH (m)-[:HAS_GENRE]->(g)<-[:HAS_GENRE]-(rec:Movie)
  WHERE NOT rec.title IN titles
WITH rec, count(DISTINCT g) AS commonGenres, m, collect(DISTINCT g.name) as genres
OPTIONAL MATCH (m)-[:DIRECTED_BY]->(d)<-[:DIRECTED_BY]-(rec)
WITH rec, commonGenres, count(DISTINCT d) AS commonDirectors, m, genres
OPTIONAL MATCH (m)<-[:ACTED_IN]-(a)<-[:ACTED_IN]-(rec)
WITH rec, commonGenres, commonDirectors, count(DISTINCT a) AS commonActors, m, genres
OPTIONAL MATCH (rec) WHERE abs(m.runtime - rec.runtime) < 10
WITH rec, commonGenres, commonDirectors, commonActors, m, genres
WITH rec, sum(commonGenres + commonDirectors + commonActors) AS totalScore, genres
RETURN rec, totalScore AS score, genres ORDER BY score DESC LIMIT amount

The first aggregation groups by the pair of nodes (rec, m); each later
aggregation counts a DISTINCT pattern variable per group, so each group
value is a function of the pair (m, rec) alone, which is how the groups
are computed below.  The second aggregation groups by (rec, genres), so
one candidate can produce several output rows, one per distinct shared
genre set contributed by the seeds.
-/

/-- Rows of UNWIND titles followed by MATCH (m:Movie {title: inputTitle}):
one row per input title per movie node carrying that title, in input
order. -/
def seedMovies (G : Graph) (titles : List String) : List Movie :=
  titles.flatMap (fun t => G.movies.filter (fun m => decide (m.title = t)))

/-- Rows of MATCH (m)-[:HAS_GENRE]->(g)<-[:HAS_GENRE]-(rec:Movie)
WHERE NOT rec.title IN titles: for each seed row m, each genre edge of
m, each co-edge into the same genre, and each movie node at its source
whose title is not an input title; the row is (m, g, rec).  The node g
is unlabelled in the pattern, so genre names are not checked against
the Genre node list here. -/
def genrePairRows (G : Graph) (titles : List String) : List (Movie × String × Movie) :=
  (seedMovies G titles).flatMap (fun m =>
    (G.hasGenre.filter (fun e => decide (e.1 = m.title))).flatMap (fun e =>
      (G.hasGenre.filter (fun e2 => decide (e2.2 = e.2))).flatMap (fun e2 =>
        (G.movies.filter (fun rec => decide (rec.title = e2.1 ∧ rec.title ∉ titles))).map
          (fun rec => (m, e.2, rec)))))

/-- The group keys of WITH rec, count(DISTINCT g), m, collect(DISTINCT
g.name): the distinct (m, rec) node pairs of genrePairRows, in first
appearance order. -/
def seedCandPairs (G : Graph) (titles : List String) : List (Movie × Movie) :=
  ((genrePairRows G titles).map (fun r => (r.1, r.2.2))).dedup

/-- The value of collect(DISTINCT g.name) in the group of the pair
(m, rec): the distinct genre names shared by m and rec through
HAS_GENRE edges, in the edge order of m.  count(DISTINCT g) is the
length of this list. -/
def sharedGenreNames (G : Graph) (m rec : Movie) : List String :=
  ((((G.hasGenre.filter (fun e => decide (e.1 = m.title))).map (fun e => e.2)).filter
    (fun g => (G.hasGenre.filter (fun e => decide (e.1 = rec.title))).any
      (fun e => decide (e.2 = g)))).dedup)

/-- The value of count(DISTINCT d) after OPTIONAL MATCH
(m)-[:DIRECTED_BY]->(d)<-[:DIRECTED_BY]-(rec): the number of distinct
names that are DIRECTED_BY targets of both m and rec (the node d is
unlabelled, so no Director label check). -/
def commonDirectors (G : Graph) (m rec : Movie) : Nat :=
  (((((G.directedBy.filter (fun e => decide (e.1 = m.title))).map (fun e => e.2)).filter
    (fun d => (G.directedBy.filter (fun e => decide (e.1 = rec.title))).any
      (fun e => decide (e.2 = d)))).dedup)).length

/-- The value of count(DISTINCT a) after OPTIONAL MATCH
(m)<-[:ACTED_IN]-(a)<-[:ACTED_IN]-(rec): a ranges over ACTED_IN
sources into m, and the second hop needs an ACTED_IN edge FROM rec
INTO a (rec stands in the actor position of that edge), exactly as the
arrows of the pattern are written in the source. -/
def commonActors (G : Graph) (m rec : Movie) : Nat :=
  (((((G.actedIn.filter (fun e => decide (e.2 = m.title))).map (fun e => e.1)).filter
    (fun a => G.actedIn.any (fun e => decide (e.1 = rec.title ∧ e.2 = a)))).dedup)).length

/-- A per-pair row after the three aggregations: the seed m, the
candidate rec, the three DISTINCT counts, and the shared genre set. -/
structure PairData where
  m : Movie
  recMovie : Movie
  commonGenres : Nat
  commonDirectors : Nat
  commonActors : Nat
  genres : List String
deriving DecidableEq, Repr

/-- The rows entering the final aggregation, without the no-op runtime
clause: one row per (m, rec) group carrying its aggregate values. -/
def basePairData (G : Graph) (titles : List String) : List PairData :=
  (seedCandPairs G titles).map (fun pr =>
    ⟨pr.1, pr.2, (sharedGenreNames G pr.1 pr.2).length, commonDirectors G pr.1 pr.2,
     commonActors G pr.1 pr.2, sharedGenreNames G pr.1 pr.2⟩)

/-- The rows entering the final aggregation as the source computes
them, including the clause OPTIONAL MATCH (rec) WHERE
abs(m.runtime - rec.runtime) < 10 on the already-bound rec. -/
def contentPairData (G : Graph) (titles : List String) : List PairData :=
  optionalMatchBound (fun p => decide ((p.m.runtime - p.recMovie.runtime).natAbs < 10))
    (basePairData G titles)

/-- The value of sum(commonGenres + commonDirectors + commonActors) in
the group keyed by (rec, genres). -/
def contentScoreFor (G : Graph) (titles : List String) (rec : Movie)
    (gs : List String) : Nat :=
  (((contentPairData G titles).filter
      (fun p => decide (p.recMovie = rec ∧ p.genres = gs))).map
    (fun p => p.commonGenres + p.commonDirectors + p.commonActors)).sum

/-- A row of the content-based result: candidate movie, totalScore
(the sort key, returned AS score), and the shared genre set that keyed
its group. -/
structure ContentRow where
  recMovie : Movie
  score : Nat
  genres : List String
deriving DecidableEq, Repr

/-- The final aggregation WITH rec, sum(...) AS totalScore, genres:
one row per distinct (rec, genres) key of contentPairData, in first
appearance order, with the summed score. -/
def contentGroups (G : Graph) (titles : List String) : List ContentRow :=
  (((contentPairData G titles).map (fun p => (p.recMovie, p.genres))).dedup).map
    (fun k => ⟨k.1, contentScoreFor G titles k.1 k.2, k.2⟩)

/-- The content-based strategy recommendContentBased (part_003 lines
251-287): rank the grouped rows by score descending and apply LIMIT. -/
def recommendContentBased (G : Graph) (titles : List String)
    (amount : Int) : Except String (List ContentRow) :=
  cypherLimit amount (orderByDesc ContentRow.score (contentGroups G titles))

/-- The same pipeline with the runtime clause removed: the score in
the group keyed by (rec, genres), computed over basePairData. -/
def contentScoreForNR (G : Graph) (titles : List String) (rec : Movie)
    (gs : List String) : Nat :=
  (((basePairData G titles).filter
      (fun p => decide (p.recMovie = rec ∧ p.genres = gs))).map
    (fun p => p.commonGenres + p.commonDirectors + p.commonActors)).sum

/-- The final aggregation of the pipeline without the runtime clause. -/
def contentGroupsNR (G : Graph) (titles : List String) : List ContentRow :=
  (((basePairData G titles).map (fun p => (p.recMovie, p.genres))).dedup).map
    (fun k => ⟨k.1, contentScoreForNR G titles k.1 k.2, k.2⟩)

/-- The content-based strategy with the clause OPTIONAL MATCH (rec)
WHERE abs(m.runtime - rec.runtime) < 10 deleted from the query. -/
def recommendContentBasedNoRuntime (G : Graph) (titles : List String)
    (amount : Int) : Except String (List ContentRow) :=
  cypherLimit amount (orderByDesc ContentRow.score (contentGroupsNR G titles))

/-! ### Attribute-weighted strategy (part_003 lines 303-391)

Pipeline:
MATCH (rec:Movie)
OPTIONAL MATCH (rec)-[:HAS_GENRE]->(g:Genre) WHERE g.name IN genres
OPTIONAL MATCH (rec)-[:DIRECTED_BY]->(d:Director) WHERE d.name IN directors
OPTIONAL MATCH (rec)<-[:ACTED_IN]-(a:Actor) WHERE a.name IN actors
WITH rec, count(DISTINCT g) AS genreScore, count(DISTINCT d) AS directorScore,
     count(DISTINCT a) AS actorScore, rec.runtime, rec.original_language, rec.year
WITH rec, ..., three CASE expressions for runtimeScore, languageScore, decadeScore
WITH rec, genreScore + directorScore + actorScore + runtimeScore
        + languageScore + decadeScore AS totalScore
three OPTIONAL MATCH / collect steps for genres, directors, actors
RETURN rec, totalScore, genres, directors, actors
ORDER BY totalScore DESC LIMIT amount

The three leading OPTIONAL MATCH clauses build a cross product of the
matching (or null) rows per movie, and the aggregation counts each
DISTINCT variable per movie, so each count is the number of distinct
matching nodes of its own dimension.
-/

/-- The criteria object of recommendByAttributes, with the defaults of
the source destructuring: genres = [], directors = [], actors = [],
runtime = { min: 0, max: 300 }, languages = [], releaseDecades = []. -/
structure AttributeCriteria where
  genres : List String
  directors : List String
  actors : List String
  runtimeMin : Int
  runtimeMax : Int
  languages : List String
  releaseDecades : List Int
deriving DecidableEq, Repr

/-- The default criteria: every filter set empty and the default
runtime range min 0, max 300. -/
def defaultCriteria : AttributeCriteria :=
  ⟨[], [], [], 0, 300, [], []⟩

/-- count(DISTINCT g) over OPTIONAL MATCH (rec)-[:HAS_GENRE]->(g:Genre)
WHERE g.name IN genres: the number of distinct Genre neighbours of rec
whose name is in the genres filter (0 when none match, since count
ignores the null of a failed optional match). -/
def genreScore (G : Graph) (c : AttributeCriteria) (rec : Movie) : Nat :=
  (((genreNames G rec.title).filter (fun g => decide (g ∈ c.genres))).dedup).length

/-- count(DISTINCT d) over OPTIONAL MATCH (rec)-[:DIRECTED_BY]->(d:Director)
WHERE d.name IN directors. -/
def directorScore (G : Graph) (c : AttributeCriteria) (rec : Movie) : Nat :=
  (((directorNames G rec.title).filter (fun d => decide (d ∈ c.directors))).dedup).length

/-- count(DISTINCT a) over OPTIONAL MATCH (rec)<-[:ACTED_IN]-(a:Actor)
WHERE a.name IN actors. -/
def actorScore (G : Graph) (c : AttributeCriteria) (rec : Movie) : Nat :=
  (((actorNames G rec.title).filter (fun a => decide (a ∈ c.actors))).dedup).length

/-- CASE WHEN movieRuntime >= runtime.min AND movieRuntime <= runtime.max
THEN 1 ELSE 0 END. -/
def runtimeScore (c : AttributeCriteria) (rec : Movie) : Nat :=
  if c.runtimeMin ≤ rec.runtime ∧ rec.runtime ≤ c.runtimeMax then 1 else 0

/-- CASE WHEN size(languages) > 0 AND movieLanguage IN languages
THEN 1 ELSE 0 END. -/
def languageScore (c : AttributeCriteria) (rec : Movie) : Nat :=
  if 0 < c.languages.length ∧ rec.original_language ∈ c.languages then 1 else 0

/-- CASE WHEN size(releaseDecades) > 0 AND
floor(toInteger(movieYear) / 10) * 10 IN releaseDecades THEN 1 ELSE 0
END; integer division truncates, and floor of an integer is itself. -/
def decadeScore (c : AttributeCriteria) (rec : Movie) : Nat :=
  if 0 < c.releaseDecades.length ∧ (rec.year / 10) * 10 ∈ c.releaseDecades then 1 else 0

/-- totalScore = genreScore + directorScore + actorScore + runtimeScore
+ languageScore + decadeScore. -/
def totalScore (G : Graph) (c : AttributeCriteria) (rec : Movie) : Nat :=
  genreScore G c rec + directorScore G c rec + actorScore G c rec
    + runtimeScore c rec + languageScore c rec + decadeScore c rec

/-- A row of the attribute result: the movie, its totalScore (the sort
key), and the three collected display lists. -/
structure AttrRow where
  recMovie : Movie
  score : Nat
  genres : List String
  directors : List String
  actors : List String
deriving DecidableEq, Repr

/-- Rows before ORDER BY: one per Movie node (every OPTIONAL MATCH
keeps the row), with the total score and the collected full
genre/director/actor lists. -/
def attrRows (G : Graph) (c : AttributeCriteria) : List AttrRow :=
  G.movies.map (fun rec =>
    ⟨rec, totalScore G c rec, genreNames G rec.title,
     directorNames G rec.title, actorNames G rec.title⟩)

/-- The attribute strategy recommendByAttributes (part_003 lines
303-391): rank every movie by totalScore descending and apply LIMIT.
This is the value of the Cypher query itself; the JavaScript call path
through the query() wrapper is modelled separately below. -/
def recommendByAttributes (G : Graph) (c : AttributeCriteria)
    (amount : Int) : Except String (List AttrRow) :=
  cypherLimit amount (orderByDesc AttrRow.score (attrRows G c))

/-! ### The JavaScript call paths and store failures (part_004)

recommendMoviesByUserSimilarity and recommendContentBased run their
query on a session directly: a rejected session.run rejects the whole
async function, so the store failure reaches the caller unchanged.

recommendByAttributes instead goes through the wrapper query() of
part_004 lines 38-49, whose try/catch CATCHES the store failure, logs
it with console.error, and falls through, returning undefined.  The
caller then evaluates result.map(...), which throws a TypeError about
reading map of undefined.  The store failure itself never reaches the
caller.
-/

/-- What a ranking call can deliver to its caller: a result list, the
store failure itself (a rejected session.run propagating), or a
secondary JavaScript TypeError raised after the store failure was
swallowed. -/
inductive JsOutcome (α : Type) where
  | ok : α → JsOutcome α
  | storeFailure : String → JsOutcome α
  | typeError : String → JsOutcome α
deriving DecidableEq, Repr

/-- The wrapper query() of part_004: on success the records are
returned; on failure the catch block logs the error and the function
returns undefined (modelled as none). -/
def dbQuery {α : Type} (storeAnswer : Except String α) : Option α :=
  match storeAnswer with
  | Except.ok a => some a
  | Except.error _ => none

/-- The answer of the graph store for a request whose query evaluates
to queryValue: an injected transport failure when storeFails is some,
otherwise the evaluation of the Cypher query (which can itself fail,
e.g. on a negative LIMIT). -/
def storeAnswer {α : Type} (storeFails : Option String)
    (queryValue : Except String α) : Except String α :=
  match storeFails with
  | some e => Except.error e
  | none => queryValue

/-- The collaborative call path: session.run directly, no catch; a
failure propagates to the caller as the store failure. -/
def recommendMoviesByUserSimilarityCall (G : Graph) (likedTitles : List String)
    (amount : Int) (storeFails : Option String) : JsOutcome (List CollabRow) :=
  match storeAnswer storeFails (recommendMoviesByUserSimilarity G likedTitles amount) with
  | Except.ok rows => JsOutcome.ok rows
  | Except.error e => JsOutcome.storeFailure e

/-- The content-based call path: session.run directly, no catch. -/
def recommendContentBasedCall (G : Graph) (titles : List String)
    (amount : Int) (storeFails : Option String) : JsOutcome (List ContentRow) :=
  match storeAnswer storeFails (recommendContentBased G titles amount) with
  | Except.ok rows => JsOutcome.ok rows
  | Except.error e => JsOutcome.storeFailure e

/-- The attribute call path: const result = await query(...); return
result.map(...).  When query() has swallowed a failure, result is
undefined and the member access result.map throws a TypeError. -/
def recommendByAttributesCall (G : Graph) (c : AttributeCriteria)
    (amount : Int) (storeFails : Option String) : JsOutcome (List AttrRow) :=
  match dbQuery (storeAnswer storeFails (recommendByAttributes G c amount)) with
  | some rows => JsOutcome.ok rows
  | none => JsOutcome.typeError "Cannot read properties of undefined (reading map)"

/-! ### Concrete graphs used to instantiate the properties -/

/-- A liked seed movie of the two-movie demonstration graph. -/
def mLiked : Movie := ⟨"Liked", 2010, 100, "en", "2010-01-01"⟩

/-- The candidate movie of the two-movie demonstration graph. -/
def mCand : Movie := ⟨"Cand", 2012, 105, "en", "2012-01-01"⟩

/-- A small graph on which all three strategies return a non-empty
result: one user rated both movies 5, both movies carry genre SciFi. -/
def witnessGraph : Graph :=
  ⟨[mLiked, mCand], ["u1"], ["SciFi"], [], [],
   [("u1", "Liked", 5), ("u1", "Cand", 5)],
   [("Liked", "SciFi"), ("Cand", "SciFi")], [], []⟩

/-- Movie of the collaborative scenario graph. -/
def mInception : Movie := ⟨"Inception", 2010, 148, "en", "2010-07-16"⟩

/-- Movie of the collaborative scenario graph. -/
def mArrival : Movie := ⟨"Arrival", 2016, 116, "en", "2016-11-11"⟩

/-- Movie of the collaborative scenario graph. -/
def mInterstellar : Movie := ⟨"Interstellar", 2014, 169, "en", "2014-11-07"⟩

/-- Movie of the collaborative scenario graph, rated highly only by
user A. -/
def mSolo : Movie := ⟨"Solo", 2018, 135, "en", "2018-05-25"⟩

/-- The scenario graph of the collaborative claim: users A and B both
rated Inception and Arrival at least 4, both rated Interstellar at
least 4, and only A rated Solo highly.  Every movie carries a genre so
that the genre-collecting MATCH keeps it. -/
def scenarioGraph : Graph :=
  ⟨[mInception, mArrival, mInterstellar, mSolo], ["A", "B"], ["SciFi"], [], [],
   [("A", "Inception", 5), ("A", "Arrival", 4), ("A", "Interstellar", 5),
    ("A", "Solo", 5), ("B", "Inception", 4), ("B", "Arrival", 5),
    ("B", "Interstellar", 4)],
   [("Inception", "SciFi"), ("Arrival", "SciFi"), ("Interstellar", "SciFi"),
    ("Solo", "SciFi")], [], []⟩

/-- Seed movie of the runtime-proximity graph, runtime 100. -/
def mSeedNear : Movie := ⟨"Seed", 2000, 100, "en", "2000-01-01"⟩

/-- Candidate of the runtime-proximity graph, runtime 200: it differs
from the seed runtime by 100, far beyond the threshold of 10. -/
def mFar : Movie := ⟨"Far", 2001, 200, "en", "2001-01-01"⟩

/-- A graph whose only candidate shares a genre with the seed but has
a runtime 100 minutes away from it. -/
def runtimeGraph : Graph :=
  ⟨[mSeedNear, mFar], [], ["G1"], [], [], [],
   [("Seed", "G1"), ("Far", "G1")], [], []⟩

/-- Seed movie of the director-only graph. -/
def mSeedDir : Movie := ⟨"Seed4", 2000, 100, "en", "2000-01-01"⟩

/-- A movie sharing a director, but no genre, with the seed. -/
def mDirOnly : Movie := ⟨"DirOnly", 2001, 100, "en", "2001-01-01"⟩

/-- A graph where the only other movie shares the director D with the
seed but shares no genre with it. -/
def directorGraph : Graph :=
  ⟨[mSeedDir, mDirOnly], [], ["G1", "G2"], ["D"], [], [],
   [("Seed4", "G1"), ("DirOnly", "G2")],
   [("Seed4", "D"), ("DirOnly", "D")], []⟩

/-- A movie titled B, listed before the movie titled A. -/
def mTieB : Movie := ⟨"B", 2000, 100, "en", "2000-01-01"⟩

/-- A movie titled A, listed after the movie titled B. -/
def mTieA : Movie := ⟨"A", 2000, 100, "en", "2000-01-01"⟩

/-- A graph with two movies of equal attribute score whose node order
is the reverse of their title order. -/
def tieGraph : Graph :=
  ⟨[mTieB, mTieA], [], [], [], [], [], [], [], []⟩

/-- A movie titled Zebra, listed before the movie titled Alpha. -/
def mZebra : Movie := ⟨"Zebra", 1990, 150, "en", "1990-01-01"⟩

/-- A movie titled Alpha, listed after the movie titled Zebra. -/
def mAlpha : Movie := ⟨"Alpha", 1995, 150, "en", "1995-01-01"⟩

/-- A second two-movie tie graph, used for the attribute ordering
property. -/
def tieGraph2 : Graph :=
  ⟨[mZebra, mAlpha], [], [], [], [], [], [], [], []⟩

/-- Lexicographic character-wise comparison of strings, as the spec
means by title ascending.  This definition renders the SPEC side of
the ordering claims; the queries themselves order by score only. -/
def lexLe : List Char → List Char → Bool
  | [], _ => true
  | _ :: _, [] => false
  | a :: as, b :: bs => if a = b then lexLe as bs else decide (a < b)

/-! ### General lemmas about the pipeline combinators -/

/-- An optional match binding no new variables keeps every row. -/
theorem optionalMatchBound_eq_self {α : Type} (cond : α → Bool) (rows : List α) :
    optionalMatchBound cond rows = rows := by
  unfold optionalMatchBound
  induction rows with
  | nil => rfl
  | cons r rs ih => simp [ih]

/-- Sorting is a permutation of its input. -/
theorem orderByDesc_perm {α : Type} (key : α → Nat) (rows : List α) :
    (orderByDesc key rows).Perm rows :=
  List.perm_insertionSort _ rows

/-- Sorting yields a list pairwise non-increasing in the key. -/
theorem orderByDesc_sorted {α : Type} (key : α → Nat) (rows : List α) :
    (orderByDesc key rows).Pairwise (fun a b => key b ≤ key a) := by
  haveI : IsTotal α (fun a b => key b ≤ key a) := ⟨fun a b => le_total (key b) (key a)⟩
  haveI : IsTrans α (fun a b => key b ≤ key a) := ⟨fun a b c h1 h2 => le_trans h2 h1⟩
  exact List.sorted_insertionSort _ rows

/-- Characterisation of a successful LIMIT. -/
theorem cypherLimit_ok {α : Type} {amount : Int} {rows ys : List α}
    (h : cypherLimit amount rows = Except.ok ys) :
    ¬ amount < 0 ∧ ys = rows.take amount.toNat := by
  unfold cypherLimit at h
  by_cases hneg : amount < 0
  · simp [hneg] at h
  · simp [hneg] at h
    exact ⟨hneg, h.symm⟩

/-- What a successful ranked query guarantees: the result has at most
amount entries, is pairwise non-increasing in the key, and every entry
comes from the unsorted row list. -/
theorem ranked_ok {α : Type} {key : α → Nat} {amount : Int} {rows ys : List α}
    (h : cypherLimit amount (orderByDesc key rows) = Except.ok ys) :
    ys.length ≤ amount.toNat ∧ ys.Pairwise (fun a b => key b ≤ key a) ∧
      ∀ y ∈ ys, y ∈ rows := by
  obtain ⟨-, hys⟩ := cypherLimit_ok h
  subst hys
  refine ⟨?_, ?_, ?_⟩
  · calc (List.take amount.toNat (orderByDesc key rows)).length
        = amount.toNat ⊓ (orderByDesc key rows).length := List.length_take _ _
      _ ≤ amount.toNat := inf_le_left
  · exact (orderByDesc_sorted key rows).sublist (List.take_sublist _ _)
  · intro y hy
    exact (orderByDesc_perm key rows).subset ((List.take_sublist _ _).subset hy)

/-! ### Structural lemmas about the collaborative pipeline -/

/-- Every row of the genre-collecting stage comes from a scored
candidate, keeps its score, and collects its (non-empty) genre list. -/
theorem mem_collabRows {G : Graph} {liked : List String} {row : CollabRow}
    (h : row ∈ collabRows G liked) :
    ∃ s, s ∈ collabScored G liked ∧ row.recMovie = s.1 ∧ row.score = s.2.1 ∧
      row.genres = genreNames G s.1.title ∧ row.genres ≠ [] := by
  obtain ⟨s, hs, hf⟩ := List.mem_filterMap.mp h
  cases hg : genreNames G s.1.title with
  | nil =>
    rw [hg] at hf
    exact absurd hf (by simp)
  | cons g gs =>
    rw [hg] at hf
    have heq := Option.some.inj hf
    subst heq
    exact ⟨s, hs, rfl, rfl, by rw [hg], by simp⟩

/-- Every scored candidate is the movie of some second-stage row. -/
theorem mem_collabScored {G : Graph} {liked : List String} {s : Movie × Nat × Nat}
    (h : s ∈ collabScored G liked) :
    ∃ cr, cr ∈ candRows G liked ∧ cr.2.2 = s.1 := by
  obtain ⟨rec, hrec, rfl⟩ := List.mem_map.mp h
  have hrec2 : rec ∈ (candRows G liked).map (fun r => r.2.2) := List.mem_dedup.mp hrec
  obtain ⟨cr, hcr, hcreq⟩ := List.mem_map.mp hrec2
  exact ⟨cr, hcr, hcreq⟩

/-- The movie of a second-stage row is never a liked title: the WHERE
clause NOT rec.title IN likedTitles filtered it. -/
theorem mem_candRows {G : Graph} {liked : List String} {cr : String × Nat × Movie}
    (h : cr ∈ candRows G liked) : cr.2.2.title ∉ liked := by
  obtain ⟨uo, huo, hcr⟩ := List.mem_flatMap.mp h
  obtain ⟨r, hr, rfl⟩ := List.mem_map.mp hcr
  have hp := of_decide_eq_true (List.mem_filter.mp hr).2
  exact hp.2.2

/-! ### Structural lemmas about the content-based pipeline -/

/-- The runtime clause does not change the rows. -/
theorem contentPairData_eq_base (G : Graph) (titles : List String) :
    contentPairData G titles = basePairData G titles :=
  optionalMatchBound_eq_self _ _

/-- Every output group of the content-based pipeline has a witnessing
seed movie sharing at least one genre with the candidate, and its
score is the grouped sum. -/
theorem mem_contentGroups {G : Graph} {titles : List String} {row : ContentRow}
    (h : row ∈ contentGroups G titles) :
    (∃ m, m ∈ seedMovies G titles ∧ sharedGenreNames G m row.recMovie ≠ []) ∧
      row.score = contentScoreFor G titles row.recMovie row.genres := by
  obtain ⟨k, hk, rfl⟩ := List.mem_map.mp h
  refine ⟨?_, rfl⟩
  have hk2 := List.mem_dedup.mp hk
  rw [contentPairData_eq_base] at hk2
  obtain ⟨p, hp, hpk⟩ := List.mem_map.mp hk2
  obtain ⟨pr, hpr, rfl⟩ := List.mem_map.mp hp
  have hpr2 := List.mem_dedup.mp hpr
  obtain ⟨gr, hgr, hgrk⟩ := List.mem_map.mp hpr2
  obtain ⟨m, hm, hgr1⟩ := List.mem_flatMap.mp hgr
  obtain ⟨e, he, hgr2⟩ := List.mem_flatMap.mp hgr1
  obtain ⟨e2, he2, hgr3⟩ := List.mem_flatMap.mp hgr2
  obtain ⟨rec, hrecmem, rfl⟩ := List.mem_map.mp hgr3
  have hrec := List.mem_filter.mp hrecmem
  have hrecp := of_decide_eq_true hrec.2
  have he2f := List.mem_filter.mp he2
  have he2p := of_decide_eq_true he2f.2
  refine ⟨m, hm, ?_⟩
  have hshared : e.2 ∈ sharedGenreNames G m rec := by
    unfold sharedGenreNames
    refine List.mem_dedup.mpr (List.mem_filter.mpr ⟨List.mem_map_of_mem _ he, ?_⟩)
    refine List.any_eq_true.mpr ⟨e2, List.mem_filter.mpr ⟨he2f.1, ?_⟩, ?_⟩
    · exact decide_eq_true (by rw [← hrecp.1])
    · exact decide_eq_true he2p
  have hk1 : k.1 = pr.2 := by
    have hfst := congrArg Prod.fst hpk
    simpa using hfst.symm
  have hpr2' : pr.2 = rec := by
    have hsnd := congrArg Prod.snd hgrk
    simpa using hsnd.symm
  rw [hk1, hpr2']
  exact List.ne_nil_of_mem hshared

/-! ### Permutation lemmas: the content pipeline and the seed order -/

/-- Permuting the input titles permutes the seed rows. -/
theorem seedMovies_perm (G : Graph) {t1 t2 : List String} (h : t1.Perm t2) :
    (seedMovies G t1).Perm (seedMovies G t2) :=
  List.Perm.flatMap_right _ h

/-- Permuting the input titles permutes the genre-join rows: the title
list enters only through the UNWIND order and through the membership
test NOT rec.title IN titles, which is order-blind. -/
theorem genrePairRows_perm (G : Graph) {t1 t2 : List String} (h : t1.Perm t2) :
    (genrePairRows G t1).Perm (genrePairRows G t2) := by
  unfold genrePairRows
  have hfilter : ∀ e2 : String × String,
      G.movies.filter (fun rec => decide (rec.title = e2.1 ∧ rec.title ∉ t1))
        = G.movies.filter (fun rec => decide (rec.title = e2.1 ∧ rec.title ∉ t2)) := by
    intro e2
    apply List.filter_congr
    intro rec _
    exact decide_eq_decide.mpr (and_congr_right fun _ => not_congr h.mem_iff)
  have hbody : (fun m : Movie =>
      (G.hasGenre.filter (fun e => decide (e.1 = m.title))).flatMap (fun e =>
        (G.hasGenre.filter (fun e2 => decide (e2.2 = e.2))).flatMap (fun e2 =>
          (G.movies.filter (fun rec => decide (rec.title = e2.1 ∧ rec.title ∉ t1))).map
            (fun rec => (m, e.2, rec)))))
      = (fun m : Movie =>
      (G.hasGenre.filter (fun e => decide (e.1 = m.title))).flatMap (fun e =>
        (G.hasGenre.filter (fun e2 => decide (e2.2 = e.2))).flatMap (fun e2 =>
          (G.movies.filter (fun rec => decide (rec.title = e2.1 ∧ rec.title ∉ t2))).map
            (fun rec => (m, e.2, rec))))) := by
    funext m
    simp only [hfilter]
  rw [hbody]
  exact List.Perm.flatMap_right _ (seedMovies_perm G h)

/-- Permuting the input titles permutes the per-pair rows. -/
theorem basePairData_perm (G : Graph) {t1 t2 : List String} (h : t1.Perm t2) :
    (basePairData G t1).Perm (basePairData G t2) := by
  unfold basePairData seedCandPairs
  exact (((genrePairRows_perm G h).map _).dedup).map _

/-- The grouped score of every (candidate, shared-genre set) key is
invariant under permutation of the input titles. -/
theorem contentScoreFor_perm (G : Graph) {t1 t2 : List String} (h : t1.Perm t2) :
    ∀ rec gs, contentScoreFor G t1 rec gs = contentScoreFor G t2 rec gs := by
  intro rec gs
  unfold contentScoreFor
  rw [contentPairData_eq_base, contentPairData_eq_base]
  exact List.Perm.sum_eq (((basePairData_perm G h).filter _).map _)

/-- The grouped output rows are, up to order, invariant under
permutation of the input titles. -/
theorem contentGroups_perm (G : Graph) {t1 t2 : List String} (h : t1.Perm t2) :
    (contentGroups G t1).Perm (contentGroups G t2) := by
  unfold contentGroups
  rw [contentPairData_eq_base, contentPairData_eq_base]
  have hfun : (fun k : Movie × List String =>
        (⟨k.1, contentScoreFor G t1 k.1 k.2, k.2⟩ : ContentRow))
      = (fun k : Movie × List String => ⟨k.1, contentScoreFor G t2 k.1 k.2, k.2⟩) := by
    funext k
    rw [contentScoreFor_perm G h]
  rw [hfun]
  exact (((basePairData_perm G h).map _).dedup).map _

/-! ### The claims -/

/-- C1 (counterexample).  The claim also requires equal-score entries
to be ordered by title ascending; on tieGraph the attribute strategy
returns two rows of equal score 1 whose titles appear as B before A,
which is not ascending (lexLe B A is false). -/
theorem c1_tie_not_title_ordered :
    (recommendByAttributes tieGraph defaultCriteria 10).toOption
      = some [⟨mTieB, 1, [], [], []⟩, ⟨mTieA, 1, [], [], []⟩] ∧
    lexLe mTieB.title.data mTieA.title.data = false := by
  decide

/-- C1 (amended).  For every graph and input, every successful result
of each of the three strategies has length at most amount and is
sorted by score descending; the order of equal-score entries is not
guaranteed (the queries order by score only). -/
theorem c1_ranked_bounded_and_score_sorted (G : Graph) (liked titles : List String)
    (c : AttributeCriteria) (amount : Int)
    (ysU : List CollabRow) (ysC : List ContentRow) (ysA : List AttrRow)
    (hU : recommendMoviesByUserSimilarity G liked amount = Except.ok ysU)
    (hC : recommendContentBased G titles amount = Except.ok ysC)
    (hA : recommendByAttributes G c amount = Except.ok ysA) :
    (ysU.length ≤ amount.toNat ∧ ysU.Pairwise (fun a b => b.score ≤ a.score)) ∧
    (ysC.length ≤ amount.toNat ∧ ysC.Pairwise (fun a b => b.score ≤ a.score)) ∧
    (ysA.length ≤ amount.toNat ∧ ysA.Pairwise (fun a b => b.score ≤ a.score)) := by
  unfold recommendMoviesByUserSimilarity at hU
  unfold recommendContentBased at hC
  unfold recommendByAttributes at hA
  obtain ⟨hU1, hU2, -⟩ := ranked_ok hU
  obtain ⟨hC1, hC2, -⟩ := ranked_ok hC
  obtain ⟨hA1, hA2, -⟩ := ranked_ok hA
  exact ⟨⟨hU1, hU2⟩, ⟨hC1, hC2⟩, ⟨hA1, hA2⟩⟩

/-- C1 (witness): the amended property, instantiated on witnessGraph
with amount 3. -/
theorem c1_ranked_bounded_and_score_sorted_witness :
    (([⟨mCand, 1, ["SciFi"]⟩] : List CollabRow).length ≤ (3 : Int).toNat ∧
      ([⟨mCand, 1, ["SciFi"]⟩] : List CollabRow).Pairwise (fun a b => b.score ≤ a.score)) ∧
    (([⟨mCand, 1, ["SciFi"]⟩] : List ContentRow).length ≤ (3 : Int).toNat ∧
      ([⟨mCand, 1, ["SciFi"]⟩] : List ContentRow).Pairwise (fun a b => b.score ≤ a.score)) ∧
    (([⟨mLiked, 1, ["SciFi"], [], []⟩, ⟨mCand, 1, ["SciFi"], [], []⟩] : List AttrRow).length
        ≤ (3 : Int).toNat ∧
      ([⟨mLiked, 1, ["SciFi"], [], []⟩, ⟨mCand, 1, ["SciFi"], [], []⟩]
        : List AttrRow).Pairwise (fun a b => b.score ≤ a.score)) :=
  c1_ranked_bounded_and_score_sorted witnessGraph ["Liked"] ["Liked"] defaultCriteria 3
    [⟨mCand, 1, ["SciFi"]⟩] [⟨mCand, 1, ["SciFi"]⟩]
    [⟨mLiked, 1, ["SciFi"], [], []⟩, ⟨mCand, 1, ["SciFi"], [], []⟩] rfl rfl rfl

/-- C5 (counterexample).  The claim also requires the order among the
score-1 movies to be by title ascending; on tieGraph2 both movies have
runtime 150, both score exactly 1, and the output lists Zebra before
Alpha. -/
theorem c5_tie_not_title_ordered :
    (recommendByAttributes tieGraph2 defaultCriteria 10).toOption
      = some [⟨mZebra, 1, [], [], []⟩, ⟨mAlpha, 1, [], [], []⟩] ∧
    lexLe mZebra.title.data mAlpha.title.data = false := by
  decide

/-- C5 (amended).  With the default criteria (all filter sets empty,
runtime range 0 to 300) every movie whose runtime lies in the range
receives totalScore exactly 1, and it appears in the pre-sort rows
with that score; the relative order of these equal-score movies in the
output is not title-ascending but unspecified (score-only ORDER BY). -/
theorem c5_default_scores_one (G : Graph) (rec : Movie)
    (h1 : rec ∈ G.movies) (h0 : 0 ≤ rec.runtime) (h2 : rec.runtime ≤ 300) :
    totalScore G defaultCriteria rec = 1 ∧
      ∃ row, row ∈ attrRows G defaultCriteria ∧ row.recMovie = rec ∧ row.score = 1 := by
  have hgs : genreScore G defaultCriteria rec = 0 := by
    simp [genreScore, defaultCriteria]
  have hds : directorScore G defaultCriteria rec = 0 := by
    simp [directorScore, defaultCriteria]
  have has : actorScore G defaultCriteria rec = 0 := by
    simp [actorScore, defaultCriteria]
  have hrs : runtimeScore defaultCriteria rec = 1 := by
    simp [runtimeScore, defaultCriteria, h0, h2]
  have hls : languageScore defaultCriteria rec = 0 := by
    simp [languageScore, defaultCriteria]
  have hcs : decadeScore defaultCriteria rec = 0 := by
    simp [decadeScore, defaultCriteria]
  have htot : totalScore G defaultCriteria rec = 1 := by
    unfold totalScore
    rw [hgs, hds, has, hrs, hls, hcs]
  refine ⟨htot, ⟨rec, totalScore G defaultCriteria rec, genreNames G rec.title,
    directorNames G rec.title, actorNames G rec.title⟩, ?_, rfl, htot⟩
  exact List.mem_map_of_mem _ h1

/-- C5 (witness): the amended property at the movie mLiked of
witnessGraph, runtime 100. -/
theorem c5_default_scores_one_witness :
    totalScore witnessGraph defaultCriteria mLiked = 1 ∧
      ∃ row, row ∈ attrRows witnessGraph defaultCriteria ∧
        row.recMovie = mLiked ∧ row.score = 1 :=
  c5_default_scores_one witnessGraph mLiked (by decide) (by decide) (by decide)

/-- C6 (counterexample).  With amount equal to minus one every
strategy fails (Neo4j rejects a negative LIMIT) instead of returning
an empty list. -/
theorem c6_negative_amount_errors :
    (recommendMoviesByUserSimilarity witnessGraph ["Liked"] (-1)).toOption = none ∧
    (recommendContentBased witnessGraph ["Liked"] (-1)).toOption = none ∧
    (recommendByAttributes witnessGraph defaultCriteria (-1)).toOption = none := by
  decide

/-- C6 (amended).  With amount equal to zero every strategy returns an
empty list without error; with a negative amount the query fails,
because LIMIT rejects negative values. -/
theorem c6_zero_empty_negative_errors (G : Graph) (liked titles : List String)
    (c : AttributeCriteria) (amount : Int) (hneg : amount < 0) :
    (recommendMoviesByUserSimilarity G liked 0 = Except.ok [] ∧
      recommendContentBased G titles 0 = Except.ok [] ∧
      recommendByAttributes G c 0 = Except.ok []) ∧
    ((recommendMoviesByUserSimilarity G liked amount).toOption = none ∧
      (recommendContentBased G titles amount).toOption = none ∧
      (recommendByAttributes G c amount).toOption = none) := by
  constructor
  · refine ⟨?_, ?_, ?_⟩ <;> rfl
  · refine ⟨?_, ?_, ?_⟩ <;>
      simp [recommendMoviesByUserSimilarity, recommendContentBased,
        recommendByAttributes, cypherLimit, hneg, Except.toOption]

/-- C6 (witness): the amended property on witnessGraph at amount minus
two. -/
theorem c6_zero_empty_negative_errors_witness :
    (recommendMoviesByUserSimilarity witnessGraph ["Liked"] 0 = Except.ok [] ∧
      recommendContentBased witnessGraph ["Liked"] 0 = Except.ok [] ∧
      recommendByAttributes witnessGraph defaultCriteria 0 = Except.ok []) ∧
    ((recommendMoviesByUserSimilarity witnessGraph ["Liked"] (-2)).toOption = none ∧
      (recommendContentBased witnessGraph ["Liked"] (-2)).toOption = none ∧
      (recommendByAttributes witnessGraph defaultCriteria (-2)).toOption = none) :=
  c6_zero_empty_negative_errors witnessGraph ["Liked"] ["Liked"] defaultCriteria (-2)
    (by decide)

/-- C2 (counterexample).  On the scenario graph both users have
overlap 2 (they each rated two liked titles highly), so Interstellar
accumulates score 2 + 2 = 4, not the claimed 2. -/
theorem c2_interstellar_score_not_two :
    ((collabScored scenarioGraph ["Inception", "Arrival"]).filter
        (fun s => decide (s.1.title = "Interstellar"))).map (fun s => s.2.1) = [4] ∧
    (4 : Nat) ≠ 2 := by
  decide

/-- C2 (amended).  On the scenario graph each candidate's score is the
sum of the overlaps of its contributing users and voters is their
count: Interstellar gets score 4 (overlap 2 from each of A and B) and
voters 2, and it is ranked ahead of Solo, which only user A rated
highly (score 2, voters 1). -/
theorem c2_scenario_scores :
    ((recommendMoviesByUserSimilarity scenarioGraph ["Inception", "Arrival"] 5).toOption.map
        (List.map (fun r => (r.recMovie.title, r.score))))
      = some [("Interstellar", 4), ("Solo", 2)] ∧
    (collabScored scenarioGraph ["Inception", "Arrival"]).filter
        (fun s => decide (s.1.title = "Interstellar")) = [(mInterstellar, 4, 2)] ∧
    (collabScored scenarioGraph ["Inception", "Arrival"]).filter
        (fun s => decide (s.1.title = "Solo")) = [(mSolo, 2, 1)] := by
  decide

/-- C3 (counterexample).  On runtimeGraph the candidate Far shares a
genre with the seed but its runtime differs from the seed runtime by
100, at least 10; the claim says it is excluded from consideration,
yet it is returned with score 1. -/
theorem c3_far_runtime_candidate_included :
    (recommendContentBased runtimeGraph ["Seed"] 10).toOption.map
        (List.map (fun r => (r.recMovie.title, r.score)))
       = some [("Far", 1)] ∧
    10 ≤ (mSeedNear.runtime - mFar.runtime).natAbs := by
  decide

/-- C3 (amended).  The runtime-proximity clause is a no-op: an
OPTIONAL MATCH on the already-bound rec binds no new variables, so it
neither restricts which candidates are considered nor contributes to
the score - the pipeline equals the pipeline with the clause deleted. -/
theorem c3_runtime_clause_noop (G : Graph) (titles : List String) (amount : Int) :
    recommendContentBased G titles amount
      = recommendContentBasedNoRuntime G titles amount := by
  simp only [recommendContentBased, recommendContentBasedNoRuntime,
    contentGroups, contentGroupsNR, contentScoreFor, contentScoreForNR,
    contentPairData_eq_base]

/-- C4 (counterexample).  On directorGraph the movie DirOnly is not a
seed title and shares the director D with the seed (the claimed score
contribution is 1), yet the content-based result is empty: a movie
sharing no genre with any seed is not a candidate at all. -/
theorem c4_director_only_candidate_absent :
    (recommendContentBased directorGraph ["Seed4"] 10).toOption = some [] ∧
    commonDirectors directorGraph mSeedDir mDirOnly = 1 ∧
    mDirOnly.title ∉ (["Seed4"] : List String) := by
  decide

/-- C4 (amended).  Only movies sharing at least one genre with at
least one seed movie appear in the content-based output (the genre
join is a required MATCH), and each output row's score is the grouped
sum of commonGenres + commonDirectors + commonActors over the
contributing seed pairs of its (candidate, shared-genre set) key. -/
theorem c4_candidates_share_genre (G : Graph) (titles : List String) (amount : Int)
    (ys : List ContentRow) (h : recommendContentBased G titles amount = Except.ok ys)
    (row : ContentRow) (hrow : row ∈ ys) :
    (∃ m, m ∈ seedMovies G titles ∧ sharedGenreNames G m row.recMovie ≠ []) ∧
      row.score = contentScoreFor G titles row.recMovie row.genres := by
  unfold recommendContentBased at h
  obtain ⟨-, -, hmem⟩ := ranked_ok h
  exact mem_contentGroups (hmem row hrow)

/-- C4 (witness): the amended property at the only output row of
runtimeGraph. -/
theorem c4_candidates_share_genre_witness :
    (∃ m, m ∈ seedMovies runtimeGraph ["Seed"] ∧
        sharedGenreNames runtimeGraph m (⟨mFar, 1, ["G1"]⟩ : ContentRow).recMovie ≠ []) ∧
      (⟨mFar, 1, ["G1"]⟩ : ContentRow).score
        = contentScoreFor runtimeGraph ["Seed"]
            (⟨mFar, 1, ["G1"]⟩ : ContentRow).recMovie
            (⟨mFar, 1, ["G1"]⟩ : ContentRow).genres :=
  c4_candidates_share_genre runtimeGraph ["Seed"] 10 [⟨mFar, 1, ["G1"]⟩] rfl
    ⟨mFar, 1, ["G1"]⟩ (by simp)

/-- C7 (confirmed).  A movie whose title is in likedTitles never
appears in the collaborative output: the WHERE clause of the second
MATCH removes it before scoring. -/
theorem c7_liked_title_never_recommended (G : Graph) (liked : List String)
    (amount : Int) (ys : List CollabRow)
    (h : recommendMoviesByUserSimilarity G liked amount = Except.ok ys)
    (row : CollabRow) (hrow : row ∈ ys) :
    row.recMovie.title ∉ liked := by
  unfold recommendMoviesByUserSimilarity at h
  obtain ⟨-, -, hmem⟩ := ranked_ok h
  obtain ⟨s, hs, hrec, -, -, -⟩ := mem_collabRows (hmem row hrow)
  obtain ⟨cr, hcr, hcrs⟩ := mem_collabScored hs
  rw [hrec, ← hcrs]
  exact mem_candRows hcr

/-- C7 (witness): the confirmed property at the only output row of
witnessGraph. -/
theorem c7_liked_title_never_recommended_witness :
    (⟨mCand, 1, ["SciFi"]⟩ : CollabRow).recMovie.title ∉ (["Liked"] : List String) :=
  c7_liked_title_never_recommended witnessGraph ["Liked"] 3 [⟨mCand, 1, ["SciFi"]⟩]
    rfl ⟨mCand, 1, ["SciFi"]⟩ (by simp)

/-- C8 (code bug).  When the graph store fails, the collaborative and
content-based paths propagate the store failure itself, but the
attribute path does not: query() catches the failure, only logs it,
and returns undefined, so the caller fails with a secondary TypeError
and the store failure never reaches it as a distinct failure kind.
No partial ranking is returned in any case. -/
theorem c8_attr_store_failure_swallowed (G : Graph) (liked titles : List String)
    (c : AttributeCriteria) (amount : Int) (e : String) :
    recommendByAttributesCall G c amount (some e)
        = JsOutcome.typeError "Cannot read properties of undefined (reading map)" ∧
    recommendMoviesByUserSimilarityCall G liked amount (some e)
        = JsOutcome.storeFailure e ∧
    recommendContentBasedCall G titles amount (some e)
        = JsOutcome.storeFailure e :=
  ⟨rfl, rfl, rfl⟩

/-- C9 (confirmed).  The score the content-based strategy assigns to
every (candidate, shared-genre set) group is invariant under any
permutation of the input seed titles, and the grouped rows themselves
agree up to order. -/
theorem c9_content_score_seed_order_invariant (G : Graph) (t1 t2 : List String)
    (h : t1.Perm t2) :
    (∀ rec gs, contentScoreFor G t1 rec gs = contentScoreFor G t2 rec gs) ∧
      (contentGroups G t1).Perm (contentGroups G t2) :=
  ⟨contentScoreFor_perm G h, contentGroups_perm G h⟩

/-- C9 (witness): the invariance at the scenario graph with the two
seed titles swapped, evaluated at the candidate Interstellar. -/
theorem c9_content_score_seed_order_invariant_witness :
    contentScoreFor scenarioGraph ["Inception", "Arrival"] mInterstellar ["SciFi"]
        = contentScoreFor scenarioGraph ["Arrival", "Inception"] mInterstellar ["SciFi"] ∧
      (contentGroups scenarioGraph ["Inception", "Arrival"]).Perm
        (contentGroups scenarioGraph ["Arrival", "Inception"]) :=
  ⟨(c9_content_score_seed_order_invariant scenarioGraph ["Inception", "Arrival"]
      ["Arrival", "Inception"] (by decide)).1 mInterstellar ["SciFi"],
   (c9_content_score_seed_order_invariant scenarioGraph ["Inception", "Arrival"]
      ["Arrival", "Inception"] (by decide)).2⟩

/-- C10 (confirmed).  The collaborative output never contains a movie
without a Genre neighbour: the genre-collecting MATCH is required, so
a scored candidate with an empty genre list is dropped whatever its
score; every returned row carries the candidate's non-empty genre
list. -/
theorem c10_genreless_candidate_never_recommended (G : Graph) (liked : List String)
    (amount : Int) (ys : List CollabRow)
    (h : recommendMoviesByUserSimilarity G liked amount = Except.ok ys)
    (row : CollabRow) (hrow : row ∈ ys) :
    row.genres = genreNames G row.recMovie.title ∧
      genreNames G row.recMovie.title ≠ [] := by
  unfold recommendMoviesByUserSimilarity at h
  obtain ⟨-, -, hmem⟩ := ranked_ok h
  obtain ⟨s, hs, hrec, -, hg, hne⟩ := mem_collabRows (hmem row hrow)
  rw [hrec]
  refine ⟨hg, ?_⟩
  rw [← hg]
  exact hne

/-- C10 (witness): the confirmed property at the only output row of
witnessGraph. -/
theorem c10_genreless_candidate_never_recommended_witness :
    (⟨mCand, 1, ["SciFi"]⟩ : CollabRow).genres
        = genreNames witnessGraph (⟨mCand, 1, ["SciFi"]⟩ : CollabRow).recMovie.title ∧
      genreNames witnessGraph (⟨mCand, 1, ["SciFi"]⟩ : CollabRow).recMovie.title ≠ [] :=
  c10_genreless_candidate_never_recommended witnessGraph ["Liked"] 3
    [⟨mCand, 1, ["SciFi"]⟩] rfl ⟨mCand, 1, ["SciFi"]⟩ (by simp)

end Neo4jDemo
